import Mathlib

/-!
Verification development for the FileRAG document question-answering
pipeline.  The Python sources (`gemini_client.py`, `document_manager.py`,
`chat_handler.py`) are shallowly embedded: remote calls (Gemini file API,
content generation) and the log file are passed explicitly as oracle
environments and state, exceptions become `Except`, and Python string
operations (`lower`, `in`, `count`, slicing) are modelled character-wise
on `List Char` / `String`.
-/

namespace FileRAG

/-! Python string primitives.  `Char.toLower` performs the ASCII case fold,
which agrees with Python `str.lower` on all characters appearing in the
fixed phrase sets of the classifier. -/

/-- Python `s.lower()`, character-wise ASCII fold. -/
def pyLower (s : String) : String := ⟨s.data.map Char.toLower⟩

/-- Python `pat in hay` on character lists: some suffix of `hay` starts
with `pat`. -/
def containsSub (pat : List Char) : List Char → Bool
  | [] => pat.isEmpty
  | c :: t => pat.isPrefixOf (c :: t) || containsSub pat t

/-- Python `pat in hay` on strings. -/
def pyContains (hay pat : String) : Bool := containsSub pat.data hay.data

/-- Python `hay.count(pat)` (non-overlapping, left-to-right), with explicit
fuel so that the definition is structurally recursive and evaluates in the
kernel.  After a match the scan resumes past the matched occurrence. -/
def countSubAux (pat : List Char) : Nat → List Char → Nat
  | 0, _ => 0
  | _ + 1, [] => 0
  | fuel + 1, c :: t =>
    if pat.isPrefixOf (c :: t) then
      1 + countSubAux pat fuel (t.drop (pat.length - 1))
    else
      countSubAux pat fuel t

/-- Python `hay.count(pat)` on character lists. -/
def countSub (pat l : List Char) : Nat := countSubAux pat l.length l

/-- Python `hay.count(pat)` on strings. -/
def pyCount (hay pat : String) : Nat := countSub pat.data hay.data

/-- `containsSub` decides the infix relation. -/
theorem containsSub_eq_true_iff (pat l : List Char) :
    containsSub pat l = true ↔ pat <:+: l := by
  induction l with
  | nil =>
    simp only [containsSub, List.isEmpty_iff, List.infix_nil]
  | cons c t ih =>
    simp only [containsSub, Bool.or_eq_true, List.infix_cons_iff,
      List.isPrefixOf_iff_prefix, ih]

/-! Counting across a concatenation.  A match of `pat` could straddle the
boundary between `l` and `m` only if some nonempty proper suffix of `l`
extends into `m` to a full match; when that is impossible the Python count
is additive over the concatenation. -/

structure RemoteFile where
  name : String
  display_name : Option String
  state : Option String
deriving DecidableEq

/-- One entry of the `sources` list built by `GeminiClient.query_with_files`
and read back by `ChatHandler._log_query` (keys `document`, `file_name`,
and an optional `chunk`). -/
structure Source where
  document : Option String
  file_name : String
  chunk : Option String
deriving DecidableEq

/-! ## `gemini_client.py` — `GeminiClient.query_with_files` -/

/-- Oracle for the remote operations one query performs: what
`genai.get_file` and `model.generate_content` return.  `Except.error e`
models a raised exception with message `e`; the `String` returned by
`generate` models `response.text`, the empty string standing for a falsy
`text`. -/
structure GeminiEnv where
  getFile : String → Except String RemoteFile
  generate : String → List RemoteFile → Except String String

/-- The readiness loop of `query_with_files` (lines 116-133): resolve each
file name, splitting into the files sent to generation and the
`failed_files` descriptions, in input order. -/
def resolveFiles (env : GeminiEnv) : List String → List RemoteFile × List String
  | [] => ([], [])
  | file_name :: rest =>
    let r := resolveFiles env rest
    match env.getFile file_name with
    | Except.error e => (r.1, (file_name ++ " (error: " ++ e ++ ")") :: r.2)
    | Except.ok file =>
      match file.state with
      | some st =>
        if st = "ACTIVE" then (file :: r.1, r.2)
        else (r.1, (file_name ++ " (state: " ++ st ++ ")") :: r.2)
      | none => (file :: r.1, r.2)

/-- The fixed refusal sentence the grounding prompt instructs the model to
emit verbatim when the answer is absent. -/
def refusalSentence : String :=
  "I don't have this information in the provided documents."

/-- The grounding prompt of `query_with_files` (lines 151-158). -/
def contextPrompt (query : String) : String :=
  "You are a helpful assistant that answers questions based on provided documents.\n\nRead the following documents carefully and answer the user's question based ONLY on the information in these documents.\n\nIf the answer is found in the documents, provide a detailed answer and cite which document(s) it came from.\nIf the answer is NOT found in the documents, respond with: \"I don't have this information in the provided documents.\"\n\nQuestion: " ++ query

/-- The fixed refusal-phrase set of the classifier (lines 178-186). -/
def notFoundPhrases : List String :=
  ["i don't have this information",
   "i don't have",
   "not found in the",
   "not available in the",
   "cannot find this",
   "no information about",
   "don't see any information"]

/-- The found/not-found classification of `query_with_files`
(lines 176-197): lower-case the answer, scan the refusal phrases, then the
length-and-sources override. -/
def classifyFound (answer : String) (sources : List Source) : Bool :=
  let answer_lower := pyLower answer
  let found := !(notFoundPhrases.any (fun p => pyContains answer_lower p))
  if sources.isEmpty = false ∧ answer.length > 50 then true else found

/-- One attribution entry per file sent to generation (lines 170-174). -/
def mkSource (file : RemoteFile) : Source :=
  { document := some (file.display_name.getD file.name),
    file_name := file.name,
    chunk := none }

/-- The structured result of `query_with_files` (the `debug_info`
diagnostic key is not modelled). -/
structure QueryResult where
  answer : String
  sources : List Source
  found : Bool
deriving DecidableEq

/-- `GeminiClient.query_with_files`.  The second component records whether
`model.generate_content` was invoked.  The surrounding `try`/`except`
catches a generation failure and converts it to a `found=False` result. -/
def query_with_files (env : GeminiEnv) (query : String) (file_names : List String) :
    QueryResult × Bool :=
  let r := resolveFiles env file_names
  let files := r.1
  let failed_files := r.2
  if files.isEmpty then
    let error_msg :=
      if failed_files.isEmpty then "No active documents available to query."
      else "No active documents available to query." ++ "\n\nFailed files: "
        ++ String.intercalate ", " failed_files
    ({ answer := error_msg, sources := [], found := false }, false)
  else
    match env.generate (contextPrompt query) files with
    | Except.error e =>
      ({ answer := "Error processing query: " ++ e
           ++ "\n\nPlease check the console for details.",
         sources := [], found := false }, true)
    | Except.ok txt =>
      let answer := if txt.isEmpty then "No answer generated" else txt
      let sources := files.map mkSource
      ({ answer := answer, sources := sources,
         found := classifyFound answer sources }, true)

/-! ## `document_manager.py` — `DocumentManager` -/

/-- Python `os.path.basename`: the part after the last `/`. -/
def basename (p : String) : String :=
  ⟨(p.data.reverse.takeWhile (fun c => c ≠ '/')).reverse⟩

/-- One entry of `DocumentManager.list_documents` (the `create_time`,
`update_time` and `uri` fields are not read by any modelled caller). -/
structure DocInfo where
  name : String
  display_name : String
deriving DecidableEq

/-- `DocumentManager.list_documents`, as a function of the outcome of
`client.list_files()`. -/
def list_documents (listFiles : Except String (List RemoteFile)) :
    Except String (List DocInfo) :=
  match listFiles with
  | Except.error e => Except.error ("Failed to list documents: " ++ e)
  | Except.ok files =>
    Except.ok (files.map (fun file =>
      { name := file.name,
        display_name := file.display_name.getD (basename file.name) }))

/-- `DocumentManager.get_all_document_names`: a listing failure is
swallowed and becomes the empty list. -/
def get_all_document_names (listFiles : Except String (List RemoteFile)) :
    List String :=
  match list_documents listFiles with
  | Except.error _ => []
  | Except.ok docs => docs.map (fun d => d.name)

/-- `DocumentManager.get_document_count`: a listing failure is swallowed
and becomes zero. -/
def get_document_count (listFiles : Except String (List RemoteFile)) : Nat :=
  match list_documents listFiles with
  | Except.error _ => 0
  | Except.ok docs => docs.length

/-- The `uploaded_file` argument of `upload_document`: a Streamlit
`UploadedFile` object (has a `read` attribute and a `name`) or a plain
file path. -/
inductive UploadSource where
  | fileObj (name : String) (mime : Option String)
  | filePath (path : String)
deriving DecidableEq

/-- The display name `upload_document` determines first (lines 66-69). -/
def uploadDisplayName (src : UploadSource) (display_name : Option String) : String :=
  match src with
  | UploadSource.fileObj n _ => display_name.getD n
  | UploadSource.filePath p => display_name.getD (basename p)

/-- The result dictionary of `upload_document`; keys absent on a given
Python path are modelled by `none` / the `duplicate := false` default. -/
structure UploadResult where
  success : Bool
  message : String
  document_name : Option String
  duplicate : Bool
  display_name : Option String
deriving DecidableEq

/-- Oracle for the remote operations of one `upload_document` call. -/
structure UploadEnv where
  listFiles : Except String (List RemoteFile)
  uploadOutcome : Except String RemoteFile

/-- The effect of a completed `genai.upload_file` call on the remote
listing: success appends the new handle, a failure leaves it unchanged. -/
def upload_file_effect (files : List RemoteFile)
    (outcome : Except String RemoteFile) : List RemoteFile :=
  match outcome with
  | Except.ok f => files ++ [f]
  | Except.error _ => files

/-- `DocumentManager.upload_document`.  The second component records
whether `client.upload_file` was invoked.  A failing duplicate check
(lines 82-84) only prints a warning and the upload proceeds. -/
def upload_document (env : UploadEnv) (src : UploadSource)
    (display_name : Option String) : UploadResult × Bool :=
  let file_display_name := uploadDisplayName src display_name
  let dup :=
    match list_documents env.listFiles with
    | Except.error _ => false
    | Except.ok docs => docs.any (fun d => d.display_name = file_display_name)
  if dup then
    ({ success := false,
       message := "Document \"" ++ file_display_name
         ++ "\" already exists. Please delete it first or rename the file.",
       document_name := none, duplicate := true, display_name := none }, false)
  else
    match env.uploadOutcome with
    | Except.ok f =>
      ({ success := true,
         message := "Document \"" ++ file_display_name ++ "\" uploaded successfully",
         document_name := some f.name, duplicate := false,
         display_name := some file_display_name }, true)
    | Except.error e =>
      ({ success := false, message := "Failed to upload document: " ++ e,
         document_name := none, duplicate := false, display_name := none }, true)

/-! ## `chat_handler.py` — `ChatHandler` -/

/-- The response dictionary `ChatHandler.query` builds and logs. -/
structure ChResponse where
  question : String
  answer : String
  sources : List Source
  found : Bool
  timestamp : String
deriving DecidableEq

/-- Oracle for one `ChatHandler.query` call: the outcome of
`client.list_files()` (behind `document_manager.get_all_document_names`),
the per-file and generation oracles, whether the log file is writable, and
the `datetime.now().isoformat()` timestamp. -/
structure ChEnv where
  listFiles : Except String (List RemoteFile)
  gemini : GeminiEnv
  logWriteOk : Bool
  now : String

/-- The 80-character `=` delimiter line of query blocks. -/
def eqLine : String := ⟨List.replicate 80 '='⟩

/-- The optional `Chunk:` excerpt line of `_log_query` (lines 116-117):
written only for a truthy `chunk` value, truncated to 100 characters. -/
def chunkLine (chunk : Option String) : String :=
  match chunk with
  | some ch =>
    if ch.isEmpty then "" else "     Chunk: " ++ ⟨ch.data.take 100⟩ ++ "...\n"
  | none => ""

/-- One `Sources:` line of `_log_query` (lines 114-117). -/
def renderSourceLine (idx : Nat) (s : Source) : String :=
  "  " ++ Nat.repr idx ++ ". Document: " ++ s.document.getD "Unknown" ++ "\n"
  ++ chunkLine s.chunk

/-- The `enumerate(sources, 1)` loop of `_log_query`. -/
def renderSources : Nat → List Source → String
  | _, [] => ""
  | idx, s :: rest => renderSourceLine idx s ++ renderSources (idx + 1) rest

/-- The sources section of a query block (lines 112-119). -/
def sourcesSection (sources : List Source) : String :=
  if sources.isEmpty then "\nSources: No sources found\n"
  else "\nSources:\n" ++ renderSources 1 sources

/-- The text one `ChatHandler._log_query` call appends. -/
def renderQueryBlock (r : ChResponse) : String :=
  "\n" ++ eqLine ++ "\n"
  ++ "Timestamp: " ++ r.timestamp ++ "\n"
  ++ "Query: " ++ r.question ++ "\n"
  ++ "\nAnswer: " ++ r.answer ++ "\n"
  ++ sourcesSection r.sources
  ++ "Status: " ++ (if r.found then "Found" else "Not Found") ++ "\n"
  ++ eqLine ++ "\n\n"

/-- `ChatHandler._log_query`: appends one query block; a write failure is
swallowed (only a warning is printed) and leaves the log unchanged. -/
def logQuery (logWriteOk : Bool) (log : String) (r : ChResponse) : String :=
  if logWriteOk then log ++ renderQueryBlock r else log

/-- The fixed answer of the zero-documents short-circuit (line 58). -/
def noDocsAnswer : String :=
  "No documents available to query. Please upload documents first."

/-- `ChatHandler.query`.  Returns the response, the log contents after the
call, and whether `model.generate_content` was invoked.  The
zero-documents branch returns directly; the other branches log the
response before returning. -/
def chQuery (env : ChEnv) (question : String) (log : String) :
    ChResponse × String × Bool :=
  let file_names := get_all_document_names env.listFiles
  if file_names.isEmpty then
    ({ question := question, answer := noDocsAnswer, sources := [],
       found := false, timestamp := env.now }, log, false)
  else
    let qr := query_with_files env.gemini question file_names
    let response : ChResponse :=
      { question := question, answer := qr.1.answer, sources := qr.1.sources,
        found := qr.1.found, timestamp := env.now }
    (response, logQuery env.logWriteOk log response, qr.2)

/-- `ChatHandler.get_query_count`: counts `"Query:"` occurrences in the
log contents (an existing but empty log yields zero, like a missing
file). -/
def get_query_count (log : String) : Nat := pyCount log "Query:"

theorem resolveFiles_mem_of_stateless (env : GeminiEnv) (fn : String)
    (f : RemoteFile) (hget : env.getFile fn = Except.ok f)
    (hstate : f.state = none) :
    ∀ names : List String, fn ∈ names → f ∈ (resolveFiles env names).1 := by
  intro names
  induction names with
  | nil => intro h; simp at h
  | cons a rest ih =>
    intro hmem
    rcases List.mem_cons.mp hmem with heq | htail
    · subst heq
      simp only [resolveFiles, hget, hstate]
      exact List.mem_cons_self f _
    · have hf := ih htail
      simp only [resolveFiles]
      cases hga : env.getFile a with
      | error e => simp only [hga]; exact hf
      | ok file =>
        simp only [hga]
        cases hsa : file.state with
        | none => simp only [hsa]; exact List.mem_cons_of_mem _ hf
        | some st =>
          simp only [hsa]
          by_cases hact : st = "ACTIVE"
          · simp only [if_pos hact]
            exact List.mem_cons_of_mem _ hf
          · simp only [if_neg hact]
            exact hf

/-! ## C3 -/

/-- C3: if the Document Registry reports zero documents, `query` returns
the fixed "no documents available" answer with `found = false` and an
empty sources list, leaves the log unchanged, and never invokes the
remote generation operation. -/
theorem query_zero_docs_short_circuit (env : ChEnv) (question log : String)
    (h : get_all_document_names env.listFiles = []) :
    chQuery env question log =
      ({ question := question, answer := noDocsAnswer, sources := [],
         found := false, timestamp := env.now }, log, false) := by
  unfold chQuery
  rw [h]
  rfl

def c3Env : ChEnv :=
  { listFiles := Except.ok [],
    gemini := { getFile := fun _ => Except.error "unused",
                generate := fun _ _ => Except.error "unused" },
    logWriteOk := true, now := "2025-01-01T00:00:00" }

theorem query_zero_docs_short_circuit_witness :
    chQuery c3Env "What is X?" "" =
      ({ question := "What is X?", answer := noDocsAnswer, sources := [],
         found := false, timestamp := "2025-01-01T00:00:00" }, "", false) :=
  query_zero_docs_short_circuit c3Env "What is X?" "" rfl

/-! ## C5 -/

/-- The remote listing after an `upload_document` call, given whether
`client.upload_file` was actually invoked. -/
def listingAfter (listFiles : Except String (List RemoteFile))
    (outcome : Except String RemoteFile) (called : Bool) :
    Except String (List RemoteFile) :=
  if called then Except.map (fun fs => upload_file_effect fs outcome) listFiles
  else listFiles

/-- C5: when the remote listing already holds a case-sensitive exact match
of the display name, `upload_document` returns `success = false`,
`duplicate = true`, does not invoke the remote upload, and the document
count is unchanged. -/
theorem upload_duplicate_short_circuit (env : UploadEnv) (src : UploadSource)
    (dn : Option String) (docs : List DocInfo)
    (hlist : list_documents env.listFiles = Except.ok docs)
    (hdup : docs.any (fun d => d.display_name = uploadDisplayName src dn) = true) :
    (upload_document env src dn).1.success = false ∧
    (upload_document env src dn).1.duplicate = true ∧
    (upload_document env src dn).2 = false ∧
    get_document_count
        (listingAfter env.listFiles env.uploadOutcome (upload_document env src dn).2)
      = get_document_count env.listFiles := by
  have hcall : upload_document env src dn =
      ({ success := false,
         message := "Document \"" ++ uploadDisplayName src dn
           ++ "\" already exists. Please delete it first or rename the file.",
         document_name := none, duplicate := true, display_name := none }, false) := by
    unfold upload_document
    rw [hlist]
    simp [hdup]
  rw [hcall]
  exact ⟨rfl, rfl, rfl, rfl⟩

def c5File : RemoteFile :=
  { name := "files/1", display_name := some "notes.txt", state := some "ACTIVE" }

def c5Env : UploadEnv :=
  { listFiles := Except.ok [c5File], uploadOutcome := Except.error "unused" }

theorem upload_duplicate_short_circuit_witness :
    (upload_document c5Env (UploadSource.fileObj "notes.txt" none) none).1.success = false ∧
    (upload_document c5Env (UploadSource.fileObj "notes.txt" none) none).1.duplicate = true ∧
    (upload_document c5Env (UploadSource.fileObj "notes.txt" none) none).2 = false ∧
    get_document_count
        (listingAfter c5Env.listFiles c5Env.uploadOutcome
          (upload_document c5Env (UploadSource.fileObj "notes.txt" none) none).2)
      = get_document_count c5Env.listFiles :=
  upload_duplicate_short_circuit c5Env (UploadSource.fileObj "notes.txt" none) none
    [{ name := "files/1", display_name := "notes.txt" }] (by rfl) (by decide)

/-! ## C9 -/

/-- C9: when the duplicate-existence check itself fails (listing the
remote documents raises), `upload_document` proceeds with the upload
anyway and returns `success = true` when the upload succeeds. -/
theorem upload_proceeds_when_check_fails (env : UploadEnv) (src : UploadSource)
    (dn : Option String) (e : String) (f : RemoteFile)
    (hlist : env.listFiles = Except.error e)
    (hup : env.uploadOutcome = Except.ok f) :
    (upload_document env src dn).1.success = true ∧
    (upload_document env src dn).1.duplicate = false ∧
    (upload_document env src dn).2 = true ∧
    (upload_document env src dn).1.document_name = some f.name := by
  have hcall : upload_document env src dn =
      ({ success := true,
         message := "Document \"" ++ uploadDisplayName src dn
           ++ "\" uploaded successfully",
         document_name := some f.name, duplicate := false,
         display_name := some (uploadDisplayName src dn) }, true) := by
    unfold upload_document
    rw [hlist, hup]
    rfl
  rw [hcall]
  exact ⟨rfl, rfl, rfl, rfl⟩

def c9File : RemoteFile :=
  { name := "files/9", display_name := some "new.txt", state := some "ACTIVE" }

def c9Env : UploadEnv :=
  { listFiles := Except.error "503 service unavailable",
    uploadOutcome := Except.ok c9File }

theorem upload_proceeds_when_check_fails_witness :
    (upload_document c9Env (UploadSource.fileObj "new.txt" none) none).1.success = true ∧
    (upload_document c9Env (UploadSource.fileObj "new.txt" none) none).1.duplicate = false ∧
    (upload_document c9Env (UploadSource.fileObj "new.txt" none) none).2 = true ∧
    (upload_document c9Env (UploadSource.fileObj "new.txt" none) none).1.document_name
      = some "files/9" :=
  upload_proceeds_when_check_fails c9Env (UploadSource.fileObj "new.txt" none) none
    "503 service unavailable" c9File rfl rfl

/-! ## C10 -/

/-- C10: a resolved file handle with no readiness-state attribute is
treated as ready: it is part of the document set sent to generation,
generation is invoked, and on success the file receives an attribution
entry. -/
theorem stateless_file_treated_ready (env : GeminiEnv) (question fn : String)
    (names : List String) (f : RemoteFile)
    (hmem : fn ∈ names) (hget : env.getFile fn = Except.ok f)
    (hstate : f.state = none) :
    f ∈ (resolveFiles env names).1 ∧
    (query_with_files env question names).2 = true ∧
    (∀ txt, env.generate (contextPrompt question) (resolveFiles env names).1
        = Except.ok txt →
      mkSource f ∈ (query_with_files env question names).1.sources) := by
  have hf : f ∈ (resolveFiles env names).1 :=
    resolveFiles_mem_of_stateless env fn f hget hstate names hmem
  have hne : (resolveFiles env names).1.isEmpty = false := by
    cases hl : (resolveFiles env names).1 with
    | nil => rw [hl] at hf; simp at hf
    | cons a t => rfl
  refine ⟨hf, ?_, ?_⟩
  · unfold query_with_files
    rw [if_neg (by simp [hne])]
    cases env.generate (contextPrompt question) (resolveFiles env names).1 <;> rfl
  · intro txt hgen
    unfold query_with_files
    rw [if_neg (by simp [hne]), hgen]
    exact List.mem_map_of_mem mkSource hf

def c10File : RemoteFile :=
  { name := "files/s", display_name := some "s.txt", state := none }

def c10Env : GeminiEnv :=
  { getFile := fun _ => Except.ok c10File,
    generate := fun _ _ => Except.ok "An answer." }

theorem stateless_file_treated_ready_witness :
    c10File ∈ (resolveFiles c10Env ["files/s"]).1 ∧
    (query_with_files c10Env "q" ["files/s"]).2 = true ∧
    (∀ txt, c10Env.generate (contextPrompt "q") (resolveFiles c10Env ["files/s"]).1
        = Except.ok txt →
      mkSource c10File ∈ (query_with_files c10Env "q" ["files/s"]).1.sources) :=
  stateless_file_treated_ready c10Env "q" "files/s" ["files/s"] c10File
    (by decide) rfl rfl

/-! ## C4 -/

/-- The classification exactly as the claim words it: lower-case the
answer; `found = false` iff some phrase of the fixed refusal-phrase set
occurs, except that non-empty attributions together with an answer longer
than 50 characters force `found = true`. -/
def specClassify (answer : String) (attributions : List Source) : Bool :=
  if attributions ≠ [] ∧ answer.length > 50 then true
  else if notFoundPhrases.any (fun p => pyContains (pyLower answer) p) then false
  else true

/-- An 80-character answer containing no refusal phrase. -/
def answer80 : String :=
  "The capital of France is Paris, as stated in the opening of the first document!!"

/-- A 30-character answer containing the phrase "not found in the". -/
def answer30 : String := "not found in the documents set"

def sampleSource : Source :=
  { document := some "notes.txt", file_name := "files/1", chunk := none }

/-- C4: the pipeline's found/not-found classification equals the function
described by the specification (phrase scan on the lower-cased answer,
overridden to `found = true` by non-empty attributions and length over
50), and the two sample classifications come out as stated. -/
theorem classification_matches_spec :
    (∀ (answer : String) (sources : List Source),
      classifyFound answer sources = specClassify answer sources) ∧
    (answer80.length = 80 ∧
      notFoundPhrases.all (fun p => !(pyContains (pyLower answer80) p)) = true ∧
      classifyFound answer80 [sampleSource] = true) ∧
    (answer30.length = 30 ∧ pyContains answer30 "not found in the" = true ∧
      classifyFound answer30 [sampleSource] = false) := by
  refine ⟨?_, ⟨by decide, by decide, by decide⟩, ⟨by decide, by decide, by decide⟩⟩
  intro answer sources
  simp only [classifyFound, specClassify]
  cases sources with
  | nil =>
    rw [if_neg (by simp), if_neg (by simp)]
    cases h : notFoundPhrases.any (fun p => pyContains (pyLower answer) p) <;>
      simp [h]
  | cons s rest =>
    by_cases hl : answer.length > 50
    · rw [if_pos ⟨by simp, hl⟩, if_pos ⟨by simp, hl⟩]
    · rw [if_neg (fun hc => hl hc.2), if_neg (fun hc => hl hc.2)]
      cases h : notFoundPhrases.any (fun p => pyContains (pyLower answer) p) <;>
        simp [h]

/-! ## C7 -/

theorem chQuery_response_of_names (env : ChEnv) (question log : String)
    (hn : (get_all_document_names env.listFiles).isEmpty = false) :
    (chQuery env question log).1 =
      { question := question,
        answer := (query_with_files env.gemini question
          (get_all_document_names env.listFiles)).1.answer,
        sources := (query_with_files env.gemini question
          (get_all_document_names env.listFiles)).1.sources,
        found := (query_with_files env.gemini question
          (get_all_document_names env.listFiles)).1.found,
        timestamp := env.now } := by
  simp only [chQuery, hn]
  rw [if_neg (by simp)]

theorem chQuery_log_of_names (env : ChEnv) (question log : String)
    (hn : (get_all_document_names env.listFiles).isEmpty = false) :
    (chQuery env question log).2.1 =
      logQuery env.logWriteOk log (chQuery env question log).1 := by
  simp only [chQuery, hn]
  rw [if_neg (by simp)]

theorem query_with_files_gen_ok (env : GeminiEnv) (q : String)
    (names : List String) (txt : String)
    (hready : (resolveFiles env names).1 ≠ [])
    (hgen : env.generate (contextPrompt q) (resolveFiles env names).1
      = Except.ok txt)
    (htxt : txt.isEmpty = false) :
    (query_with_files env q names).1 =
      { answer := txt,
        sources := (resolveFiles env names).1.map mkSource,
        found := classifyFound txt ((resolveFiles env names).1.map mkSource) } := by
  have hne : (resolveFiles env names).1.isEmpty = false := by
    simpa [List.isEmpty_iff] using hready
  simp only [query_with_files, hne, hgen, htxt]
  rfl

theorem status_found_in_block (r : ChResponse) (h : r.found = true) :
    pyContains (renderQueryBlock r) "Status: Found" = true := by
  show containsSub ("Status: Found").data (renderQueryBlock r).data = true
  rw [containsSub_eq_true_iff]
  simp only [renderQueryBlock, h, if_true, String.data_append, List.append_assoc]
  iterate 13 refine List.IsInfix.trans ?_ (List.IsSuffix.isInfix (List.suffix_append _ _))
  refine List.IsPrefix.isInfix ⟨"\n".data ++ (eqLine.data ++ "\n\n".data), ?_⟩
  decide

/-! ## C1 -/

def c1File : RemoteFile :=
  { name := "files/abc", display_name := some "notes.txt", state := some "ACTIVE" }

def c1Env : ChEnv :=
  { listFiles := Except.ok [c1File],
    gemini := { getFile := fun _ => Except.ok c1File,
                generate := fun _ _ => Except.ok refusalSentence },
    logWriteOk := true, now := "2025-01-01T00:00:00" }

set_option maxRecDepth 16384 in
/-- C1 counterexample: with one Active document and generation returning
exactly the refusal sentence, the pipeline classifies `found = true` (the
56-character refusal exceeds the 50-character override threshold and an
attribution is present) and the log block carries `Status: Found`, not
`Status: Not Found`. -/
theorem refusal_with_attribution_found_true :
    (chQuery c1Env "What is X?" "").1.answer = refusalSentence ∧
    (chQuery c1Env "What is X?" "").1.found = true ∧
    pyContains (chQuery c1Env "What is X?" "").2.1 "Status: Found" = true := by
  refine ⟨rfl, rfl, by decide⟩

/-- C1 (amended): the phrase scan alone classifies the exact refusal
sentence as `found = false`, but whenever generation is actually reached
the attribution list is non-empty and the 56-character refusal sentence
triggers the length override, so the pipeline yields `found = true` and
the logged record carries `Status: Found`. -/
theorem refusal_override_status (env : ChEnv) (question log : String)
    (hready : (resolveFiles env.gemini (get_all_document_names env.listFiles)).1 ≠ [])
    (hgen : env.gemini.generate (contextPrompt question)
        (resolveFiles env.gemini (get_all_document_names env.listFiles)).1
      = Except.ok refusalSentence) :
    classifyFound refusalSentence [] = false ∧
    (chQuery env question log).1.found = true ∧
    pyContains (renderQueryBlock (chQuery env question log).1) "Status: Found" = true := by
  have hn : (get_all_document_names env.listFiles).isEmpty = false := by
    cases hl : get_all_document_names env.listFiles with
    | nil => rw [hl] at hready; simp [resolveFiles] at hready
    | cons a t => rfl
  have hresp := chQuery_response_of_names env question log hn
  have hqwf := query_with_files_gen_ok env.gemini question
    (get_all_document_names env.listFiles) refusalSentence hready hgen (by decide)
  have hfound : (chQuery env question log).1.found = true := by
    rw [hresp]
    show (query_with_files env.gemini question
      (get_all_document_names env.listFiles)).1.found = true
    rw [hqwf]
    show classifyFound refusalSentence
      ((resolveFiles env.gemini (get_all_document_names env.listFiles)).1.map mkSource) = true
    cases hl : (resolveFiles env.gemini (get_all_document_names env.listFiles)).1 with
    | nil => exact absurd hl hready
    | cons f t =>
      simp only [List.map]
      simp only [classifyFound]
      rw [if_pos ⟨by simp, by decide⟩]
  exact ⟨by decide, hfound, status_found_in_block _ hfound⟩

theorem refusal_override_status_witness :
    classifyFound refusalSentence [] = false ∧
    (chQuery c1Env "What is X?" "").1.found = true ∧
    pyContains (renderQueryBlock (chQuery c1Env "What is X?" "").1) "Status: Found" = true :=
  refusal_override_status c1Env "What is X?" "" (by decide) rfl

/-! ## C2 -/

def c2Env : ChEnv :=
  { listFiles := Except.ok [],
    gemini := { getFile := fun _ => Except.error "unused",
                generate := fun _ _ => Except.error "unused" },
    logWriteOk := true, now := "t" }

/-- C2 counterexample: with zero documents registered (and a perfectly
writable log), `query` returns from its short-circuit with the log
unchanged — no Query Record is appended on that path. -/
theorem zero_docs_skips_logging :
    (chQuery c2Env "What is X?" "PRIOR").2.1 = "PRIOR" ∧
    get_query_count (chQuery c2Env "What is X?" "PRIOR").2.1 =
      get_query_count "PRIOR" := by
  exact ⟨rfl, rfl⟩

/-- C2 (amended): whenever the registry reports at least one document and
the log is writable, `query` appends exactly one query block before
returning, on the generation-success and on every generation-failure
path; only the zero-documents short-circuit returns without logging. -/
theorem query_logs_when_documents_exist (env : ChEnv) (question log : String)
    (hnames : get_all_document_names env.listFiles ≠ [])
    (hlog : env.logWriteOk = true) :
    (chQuery env question log).2.1 =
      log ++ renderQueryBlock (chQuery env question log).1 := by
  have hn : (get_all_document_names env.listFiles).isEmpty = false := by
    simpa [List.isEmpty_iff] using hnames
  rw [chQuery_log_of_names env question log hn]
  simp only [logQuery, hlog, if_true]

def c2bFile : RemoteFile :=
  { name := "files/b", display_name := some "b.txt", state := some "ACTIVE" }

def c2bEnv : ChEnv :=
  { listFiles := Except.ok [c2bFile],
    gemini := { getFile := fun _ => Except.ok c2bFile,
                generate := fun _ _ => Except.ok "Paris." },
    logWriteOk := true, now := "t" }

theorem query_logs_when_documents_exist_witness :
    (chQuery c2bEnv "q" "").2.1 =
      "" ++ renderQueryBlock (chQuery c2bEnv "q" "").1 :=
  query_logs_when_documents_exist c2bEnv "q" "" (by decide) rfl

/-! ## C6 -/

def c6File : RemoteFile :=
  { name := "files/s", display_name := some "s.txt", state := none }

def c6Answer : String :=
  "This answer has sixty characters of body text in it, right?!"

def c6Env : GeminiEnv :=
  { getFile := fun _ => Except.ok c6File,
    generate := fun _ _ => Except.ok c6Answer }

/-- C6 counterexample: a non-empty requested set whose single handle has
no readiness-state attribute contains no Active document, yet generation
is invoked and the query can come back `found = true`. -/
theorem no_active_yet_generate_called :
    c6File.state = none ∧
    (query_with_files c6Env "What is X?" ["files/s"]).2 = true ∧
    (query_with_files c6Env "What is X?" ["files/s"]).1.found = true := by
  exact ⟨rfl, rfl, by decide⟩

theorem resolveFiles_all_unready (env : GeminiEnv) :
    ∀ names : List String,
      (∀ fn ∈ names, (∃ e, env.getFile fn = Except.error e) ∨
        (∃ f st, env.getFile fn = Except.ok f ∧ f.state = some st ∧ st ≠ "ACTIVE")) →
      (resolveFiles env names).1 = [] ∧
      (resolveFiles env names).2.length = names.length ∧
      (∀ fn ∈ names, ∃ reason, (fn ++ reason) ∈ (resolveFiles env names).2) := by
  intro names
  induction names with
  | nil =>
    intro _
    exact ⟨rfl, rfl, by intro fn hfn; simp at hfn⟩
  | cons a rest ih =>
    intro h
    have ha := h a (List.mem_cons_self a rest)
    have hrest := ih (fun fn hf => h fn (List.mem_cons_of_mem a hf))
    rcases ha with ⟨e, he⟩ | ⟨f, st, hf, hs, hne⟩
    · simp only [resolveFiles, he]
      refine ⟨hrest.1, by simp [hrest.2.1], ?_⟩
      intro fn hfn
      rcases List.mem_cons.mp hfn with heq | htail
      · subst heq
        exact ⟨" (error: " ++ e ++ ")",
          by rw [← String.append_assoc, ← String.append_assoc]
             exact List.mem_cons_self _ _⟩
      · obtain ⟨r, hr⟩ := hrest.2.2 fn htail
        exact ⟨r, List.mem_cons_of_mem _ hr⟩
    · simp only [resolveFiles, hf, hs, if_neg hne]
      refine ⟨hrest.1, by simp [hrest.2.1], ?_⟩
      intro fn hfn
      rcases List.mem_cons.mp hfn with heq | htail
      · subst heq
        exact ⟨" (state: " ++ st ++ ")",
          by rw [← String.append_assoc, ← String.append_assoc]
             exact List.mem_cons_self _ _⟩
      · obtain ⟨r, hr⟩ := hrest.2.2 fn htail
        exact ⟨r, List.mem_cons_of_mem _ hr⟩

/-- C6 (amended): when the requested set is non-empty and every requested
document resolves to a lookup error or to a present readiness state other
than Active — handles lacking a state attribute count as ready instead —
the pipeline returns `found = false` with the answer enumerating every
not-ready document with its reason, and generation is not invoked. -/
theorem all_unready_no_generate (env : GeminiEnv) (question : String)
    (names : List String) (hnonempty : names ≠ [])
    (h : ∀ fn ∈ names, (∃ e, env.getFile fn = Except.error e) ∨
      (∃ f st, env.getFile fn = Except.ok f ∧ f.state = some st ∧ st ≠ "ACTIVE")) :
    (query_with_files env question names).2 = false ∧
    (query_with_files env question names).1.found = false ∧
    (query_with_files env question names).1.sources = [] ∧
    (query_with_files env question names).1.answer =
      "No active documents available to query." ++ "\n\nFailed files: "
        ++ String.intercalate ", " (resolveFiles env names).2 ∧
    (∀ fn ∈ names, ∃ reason, (fn ++ reason) ∈ (resolveFiles env names).2) := by
  obtain ⟨h1, h2, h3⟩ := resolveFiles_all_unready env names h
  have hff : (resolveFiles env names).2.isEmpty = false := by
    cases hl : (resolveFiles env names).2 with
    | nil =>
      rw [hl] at h2
      cases names with
      | nil => exact absurd rfl hnonempty
      | cons a t => simp at h2
    | cons a t => rfl
  simp only [query_with_files, h1, hff]
  exact ⟨rfl, rfl, rfl, rfl, h3⟩

def c6bFile : RemoteFile :=
  { name := "files/p", display_name := some "p.txt", state := some "PROCESSING" }

def c6bEnv : GeminiEnv :=
  { getFile := fun _ => Except.ok c6bFile,
    generate := fun _ _ => Except.error "unused" }

theorem all_unready_no_generate_witness :
    (query_with_files c6bEnv "q" ["files/p"]).2 = false ∧
    (query_with_files c6bEnv "q" ["files/p"]).1.found = false ∧
    (query_with_files c6bEnv "q" ["files/p"]).1.sources = [] ∧
    (query_with_files c6bEnv "q" ["files/p"]).1.answer =
      "No active documents available to query." ++ "\n\nFailed files: "
        ++ String.intercalate ", " (resolveFiles c6bEnv ["files/p"]).2 ∧
    (∀ fn ∈ ["files/p"], ∃ reason,
      (fn ++ reason) ∈ (resolveFiles c6bEnv ["files/p"]).2) :=
  all_unready_no_generate c6bEnv "q" ["files/p"] (by decide)
    (fun fn hfn => by
      rw [List.mem_singleton.mp hfn]
      exact Or.inr ⟨c6bFile, "PROCESSING", rfl, rfl, by decide⟩)

/-! ## C8 — helper lemmas

`get_query_count` scans the whole log for the `"Query:"` marker, so the
count lemmas track every character segment a block rendering appends. -/

theorem String_data_empty : ("" : String).data = [] := rfl

end FileRAG
